import Mathlib

/-!
Shallow embedding of the tqs Go client library (src/tqs.go).

The HTTP transport and JSON (de)serialization are external collaborators of
the library, so they are modelled as oracle parameters: `transport` maps the
request an operation builds to either a transport error (`Except.error`) or
an `HttpResponse`, whose body-read outcome (`ioutil.ReadAll`) is part of the
response value; the `unmarshal*` parameters model `json.Unmarshal` applied to
the body bytes, returning either an opaque decode-error code or the decoded
value.

Go methods here take their receiver by value and never assign to its fields,
so each operation is embedded in explicit state-passing style: it returns its
result paired with the receiver's value after the call.
-/

namespace Tqs

inductive ReadResult where
  | ok (body : String)
  | failed
deriving DecidableEq

structure HttpResponse where
  status : Nat
  bodyRead : ReadResult
deriving DecidableEq

structure MessageBody where
  Text : String
  Type' : String
deriving DecidableEq

inductive RequestBody where
  | createQueue (name : String)
  | putMessages (messages : List MessageBody)
deriving DecidableEq

structure HttpRequest where
  method : String
  url : String
  headers : List (String × String)
  query : List (String × String)
  closeConn : Bool
  body : Option RequestBody
deriving DecidableEq

structure Queue where
  Endpoint : String
  Name : String
  url : String
  token : String
deriving DecidableEq

structure Message where
  queue : Queue
  BodyText : String
  BodyType : String
  CreateDate : Int
  VisibleDate : Int
  ExpireDate : Int
  LeaseUUID : String
  LeaseTimeout : Int
  LeaseDate : Int
deriving DecidableEq

structure QueueStatistics where
  Visible : Int
  Delayed : Int
  Leased : Int
deriving DecidableEq

inductive TqsError where
  | leaseNotFound (message : Message)
  | queueNotFound (queue : Queue)
  | queueEmpty (queue : Queue)
  | queueAlreadyExists (queue : Queue)
  | queueHTTP (queue : Queue) (statusCode : Nat)
  | transportFailure (code : Nat)
  | jsonDecode (code : Nat)
deriving DecidableEq

abbrev Transport := HttpRequest → Except Nat HttpResponse

def Queue.zero : Queue := ⟨"", "", "", ""⟩

def Message.zero : Message := ⟨Queue.zero, "", "", 0, 0, 0, "", 0, 0⟩

def QueueStatistics.zero : QueueStatistics := ⟨0, 0, 0⟩

def authHeader (token : String) : List (String × String) :=
  if token ≠ "" then [("Authentication", "token " ++ token)] else []

def NewQueue (endpoint name token : String) : Queue :=
  { Endpoint := endpoint, Name := name,
    url := endpoint ++ "/queues/" ++ name, token := token }

def Message.deleteRequest (m : Message) : HttpRequest :=
  { method := "DELETE", url := m.queue.url ++ "/leases/" ++ m.LeaseUUID,
    headers := authHeader m.queue.token, query := [], closeConn := true,
    body := none }

def Message.Delete (m : Message) (transport : Transport) :
    Option TqsError × Message :=
  (match transport m.deleteRequest with
   | .error e => some (.transportFailure e)
   | .ok res => if res.status = 404 then some (.leaseNotFound m) else none,
   m)

def Queue.statisticsRequest (q : Queue) : HttpRequest :=
  { method := "GET", url := q.url ++ "/statistics",
    headers := authHeader q.token, query := [], closeConn := false,
    body := none }

def Queue.Statistics (q : Queue) (transport : Transport)
    (unmarshalStats : String → Except Nat QueueStatistics) :
    (QueueStatistics × Option TqsError) × Queue :=
  (match transport q.statisticsRequest with
   | .error e => (QueueStatistics.zero, some (.transportFailure e))
   | .ok res =>
     if res.status = 404 then (QueueStatistics.zero, some (.queueNotFound q))
     else
       match res.bodyRead with
       -- on a body-read failure the Go code returns the `err` variable from
       -- `client.Do`, which is nil at this point, not `readErr`
       | .failed => (QueueStatistics.zero, none)
       | .ok body =>
         match unmarshalStats body with
         | .error e => (QueueStatistics.zero, some (.jsonDecode e))
         | .ok statistics => (statistics, none),
   q)

def Queue.Exists (q : Queue) (transport : Transport)
    (unmarshalStats : String → Except Nat QueueStatistics) :
    (Bool × Option TqsError) × Queue :=
  (match (q.Statistics transport unmarshalStats).1.2 with
   | some e =>
     match e with
     | .queueNotFound _ => (false, none)
     | _ => (false, some e)
   | none => (true, none),
   q)

def Queue.createRequest (q : Queue) : HttpRequest :=
  { method := "POST", url := q.Endpoint ++ "/queues",
    headers := authHeader q.token ++ [("Content-Type", "application/json")],
    query := [], closeConn := true, body := some (.createQueue q.Name) }

def Queue.Create (q : Queue) (transport : Transport) :
    Option TqsError × Queue :=
  (match transport q.createRequest with
   | .error e => some (.transportFailure e)
   | .ok res =>
     if res.status = 409 then some (.queueAlreadyExists q)
     else if res.status ≠ 200 then some (.queueHTTP q res.status)
     else none,
   q)

structure GetOptions where
  Wait : Int
  Delete : Bool
  Retry : Bool
deriving DecidableEq

def getQuery (options : Option GetOptions) : List (String × String) :=
  match options with
  | none => []
  | some o =>
    (if o.Delete then [("delete", "true")] else []) ++
    (if o.Wait > 0 then [("wait_time", toString (o.Wait.tdiv 1000000000))]
     else [])

def Queue.getRequest (q : Queue) (options : Option GetOptions) : HttpRequest :=
  { method := "GET", url := q.url, headers := authHeader q.token,
    query := getQuery options, closeConn := true, body := none }

def Queue.Get (q : Queue) (options : Option GetOptions)
    (transport : Transport)
    (unmarshalBatch : String → Except Nat (List Message)) :
    (Message × Option TqsError) × Queue :=
  (match transport (q.getRequest options) with
   | .error e => (Message.zero, some (.transportFailure e))
   | .ok res =>
     if res.status = 404 then (Message.zero, some (.queueNotFound q))
     else
       match res.bodyRead with
       -- on a body-read failure the Go code returns the `err` variable from
       -- `client.Do`, which is nil at this point, not `readErr`
       | .failed => (Message.zero, none)
       | .ok body =>
         match unmarshalBatch body with
         | .error e => (Message.zero, some (.jsonDecode e))
         | .ok messages =>
           match messages with
           | [msg] => ({ msg with queue := q }, none)
           | _ => (Message.zero, some (.queueEmpty q)),
   q)

def Queue.GetValue (q : Queue) (options : Option GetOptions)
    (transport : Transport)
    (unmarshalBatch : String → Except Nat (List Message))
    (unmarshalValue : String → Option Nat) : Option TqsError × Queue :=
  (match (q.Get options transport unmarshalBatch).1 with
   | (_, some e) => some e
   | (msg, none) =>
     match unmarshalValue msg.BodyText with
     | some e => some (.jsonDecode e)
     | none => none,
   q)

def Queue.putRequest (q : Queue) (bodyText bodyType : String) : HttpRequest :=
  { method := "POST", url := q.url,
    headers := authHeader q.token ++ [("Content-Type", "application/json")],
    query := [], closeConn := true,
    body := some (.putMessages [⟨bodyText, bodyType⟩]) }

def Queue.Put (q : Queue) (bodyText bodyType : String)
    (transport : Transport) : Option TqsError × Queue :=
  (match transport (q.putRequest bodyText bodyType) with
   | .error e => some (.transportFailure e)
   | .ok res =>
     if res.status = 404 then some (.queueNotFound q)
     else if res.status ≠ 200 then some (.queueHTTP q res.status)
     else none,
   q)

/-! Concrete values used to instantiate the theorems below. -/

def q0 : Queue := NewQueue "http://h" "main" "tok"

def res200b : HttpResponse := ⟨200, .ok "b"⟩

def tOK : Transport := fun _ => .ok res200b

def t404 : Transport := fun _ => .ok ⟨404, .ok ""⟩

def t409 : Transport := fun _ => .ok ⟨409, .ok ""⟩

def t500 : Transport := fun _ => .ok ⟨500, .ok ""⟩

def tReadFail : Transport := fun _ => .ok ⟨200, .failed⟩

def emptyBatch : String → Except Nat (List Message) := fun _ => .ok []

def msgA : Message := { Message.zero with BodyText := "x", LeaseUUID := "A" }

def msgB : Message := { Message.zero with BodyText := "x", LeaseUUID := "B" }

def twoBatch : String → Except Nat (List Message) := fun _ => .ok [msgA, msgB]

def oneBatchA : String → Except Nat (List Message) := fun _ => .ok [msgA]

def oneBatchB : String → Except Nat (List Message) := fun _ => .ok [msgB]

def umFail : String → Option Nat := fun _ => some 7

def uStatsZero : String → Except Nat QueueStatistics :=
  fun _ => .ok QueueStatistics.zero

def m0 : Message := { Message.zero with queue := q0, LeaseUUID := "L" }

/-- Claim C1: for every Get call, a 404 response status yields a
QueueNotFound error (never QueueEmpty), and a non-404 response whose decoded
batch contains zero messages yields a QueueEmpty error (never
QueueNotFound). -/
theorem get_404_vs_empty (q : Queue) (options : Option GetOptions)
    (transport : Transport)
    (unmarshalBatch : String → Except Nat (List Message))
    (res : HttpResponse) (body : String)
    (hres : transport (q.getRequest options) = .ok res) :
    (res.status = 404 →
      (q.Get options transport unmarshalBatch).1.2
          = some (.queueNotFound q) ∧
      ∀ q', (q.Get options transport unmarshalBatch).1.2
          ≠ some (.queueEmpty q')) ∧
    (res.status ≠ 404 → res.bodyRead = .ok body →
      unmarshalBatch body = .ok [] →
      (q.Get options transport unmarshalBatch).1.2
          = some (.queueEmpty q) ∧
      ∀ q', (q.Get options transport unmarshalBatch).1.2
          ≠ some (.queueNotFound q')) := by
  constructor
  · intro h404
    simp [Queue.Get, hres, h404]
  · intro h404 hbody hbatch
    simp [Queue.Get, hres, h404, hbody, hbatch]

/-- Instantiation of `get_404_vs_empty`: an existing queue answering 200 with
an empty batch yields QueueEmpty. -/
theorem get_404_vs_empty_witness :
    (Queue.Get q0 none tOK emptyBatch).1.2 = some (.queueEmpty q0) :=
  ((get_404_vs_empty q0 none tOK emptyBatch res200b "b" rfl).2
    (by decide) rfl rfl).1

/-- Claim C2: Message.Delete on a received HTTP response returns
LeaseNotFound exactly when the status is 404; every other status, including
5xx, yields no error. -/
theorem delete_status_contract (m : Message) (transport : Transport)
    (res : HttpResponse)
    (hres : transport m.deleteRequest = .ok res) :
    ((m.Delete transport).1 = some (.leaseNotFound m) ↔ res.status = 404) ∧
    (res.status ≠ 404 → (m.Delete transport).1 = none) := by
  constructor
  · by_cases h : res.status = 404 <;> simp [Message.Delete, hres, h]
  · intro h
    simp [Message.Delete, hres, h]

/-- Instantiation of `delete_status_contract`: a 500 response still counts as
success. -/
theorem delete_status_contract_witness :
    (Message.Delete m0 t500).1 = none :=
  (delete_status_contract m0 t500 ⟨500, .ok ""⟩ rfl).2 (by decide)

/-- Claim C3: Exists returns (false, nil) exactly when Statistics returns a
QueueNotFound error; any other error from Statistics is propagated unchanged,
and a successful Statistics yields (true, nil). -/
theorem exists_statistics_contract (q : Queue) (transport : Transport)
    (unmarshalStats : String → Except Nat QueueStatistics) :
    ((q.Statistics transport unmarshalStats).1.2 = none →
      (q.Exists transport unmarshalStats).1 = (true, none)) ∧
    (∀ q', (q.Statistics transport unmarshalStats).1.2
        = some (.queueNotFound q') →
      (q.Exists transport unmarshalStats).1 = (false, none)) ∧
    (∀ e, (q.Statistics transport unmarshalStats).1.2 = some e →
      (∀ q', e ≠ .queueNotFound q') →
      (q.Exists transport unmarshalStats).1 = (false, some e)) ∧
    ((q.Exists transport unmarshalStats).1 = (false, none) ↔
      ∃ q', (q.Statistics transport unmarshalStats).1.2
          = some (.queueNotFound q')) := by
  refine ⟨?_, ?_, ?_, ?_⟩
  · intro h
    simp [Queue.Exists, h]
  · intro q' h
    simp [Queue.Exists, h]
  · intro e h hne
    cases e <;> simp [Queue.Exists, h]
    exact absurd rfl (hne _)
  · constructor
    · intro h
      rcases hs : (q.Statistics transport unmarshalStats).1.2 with _ | e
      · simp [Queue.Exists, hs] at h
      · cases e <;> simp [Queue.Exists, hs] at h ⊢
    · rintro ⟨q', hq⟩
      simp [Queue.Exists, hq]

/-- Instantiation of `exists_statistics_contract`: a 404 from Statistics is
translated into (false, nil). -/
theorem exists_statistics_contract_witness :
    (Queue.Exists q0 t404 uStatsZero).1 = (false, none) :=
  (exists_statistics_contract q0 t404 uStatsZero).2.1 q0 rfl

/-- Claim C4: Create maps status 200 to nil, status 409 to
QueueAlreadyExists, and every other status to a QueueHTTPError carrying that
raw status; 409 takes precedence over the generic non-200 case. -/
theorem create_status_contract (q : Queue) (transport : Transport)
    (res : HttpResponse)
    (hres : transport q.createRequest = .ok res) :
    (res.status = 200 → (q.Create transport).1 = none) ∧
    (res.status = 409 →
      (q.Create transport).1 = some (.queueAlreadyExists q)) ∧
    (res.status ≠ 200 → res.status ≠ 409 →
      (q.Create transport).1 = some (.queueHTTP q res.status)) := by
  refine ⟨?_, ?_, ?_⟩
  · intro h
    simp [Queue.Create, hres, h]
  · intro h
    simp [Queue.Create, hres, h]
  · intro h200 h409
    simp [Queue.Create, hres, h200, h409]

/-- Instantiation of `create_status_contract`: a 409 response yields
QueueAlreadyExists. -/
theorem create_status_contract_witness :
    (Queue.Create q0 t409).1 = some (.queueAlreadyExists q0) :=
  (create_status_contract q0 t409 ⟨409, .ok ""⟩ rfl).2.1 rfl

/-- Claim C5 counterexample: on a non-404 response whose batch decodes to the
two messages msgA and msgB, Get does not return the first message with no
error; it returns the zero Message together with a QueueEmpty error. -/
theorem get_two_messages_counterexample :
    (Queue.Get q0 none tOK twoBatch).1 ≠ ({ msgA with queue := q0 }, none) ∧
    (Queue.Get q0 none tOK twoBatch).1
        = (Message.zero, some (.queueEmpty q0)) := by
  decide

/-- Claim C5 amended: for every Get call whose non-404 response batch decodes
to more than one message, Get returns the zero Message together with a
QueueEmpty error, exactly as for an empty batch; the first message of the
batch is not returned. -/
theorem get_multi_message_returns_queue_empty (q : Queue)
    (options : Option GetOptions) (transport : Transport)
    (unmarshalBatch : String → Except Nat (List Message))
    (res : HttpResponse) (body : String) (messages : List Message)
    (hres : transport (q.getRequest options) = .ok res)
    (h404 : res.status ≠ 404) (hbody : res.bodyRead = .ok body)
    (hbatch : unmarshalBatch body = .ok messages)
    (hlen : 1 < messages.length) :
    (q.Get options transport unmarshalBatch).1
        = (Message.zero, some (.queueEmpty q)) := by
  match messages, hlen with
  | m₁ :: m₂ :: rest, _ =>
    simp [Queue.Get, hres, h404, hbody, hbatch]

/-- Instantiation of `get_multi_message_returns_queue_empty` on a concrete
two-message batch. -/
theorem get_multi_message_returns_queue_empty_witness :
    (Queue.Get q0 none tOK twoBatch).1
        = (Message.zero, some (.queueEmpty q0)) :=
  get_multi_message_returns_queue_empty q0 none tOK twoBatch res200b "b"
    [msgA, msgB] rfl (by decide) rfl rfl (by decide)

/-- Claim C6: in the request Get builds with non-nil options, the delete
query parameter is present (with value "true") exactly when options.Delete is
true, the wait_time parameter is present exactly when options.Wait is
strictly positive, and its value is the decimal rendering of the Wait
duration's nanoseconds divided (truncating) by 10^9. -/
theorem get_query_params (q : Queue) (o : GetOptions) :
    ((("delete", "true") ∈ (q.getRequest (some o)).query) ↔
      o.Delete = true) ∧
    (o.Delete = false →
      ∀ v, ("delete", v) ∉ (q.getRequest (some o)).query) ∧
    ((∃ v, ("wait_time", v) ∈ (q.getRequest (some o)).query) ↔
      0 < o.Wait) ∧
    (0 < o.Wait →
      ("wait_time", toString (o.Wait.tdiv 1000000000))
          ∈ (q.getRequest (some o)).query) ∧
    (¬ 0 < o.Wait →
      ∀ v, ("wait_time", v) ∉ (q.getRequest (some o)).query) := by
  obtain ⟨w, d, r⟩ := o
  by_cases hd : d <;> by_cases hw : 0 < w <;>
    simp [Queue.getRequest, getQuery, hd, hw]

/-- Instantiation of `get_query_params`: a 2.5-second wait is encoded as
whole seconds. -/
theorem get_query_params_witness :
    ("wait_time", toString ((2500000000 : Int).tdiv 1000000000))
        ∈ (Queue.getRequest q0 (some ⟨2500000000, true, false⟩)).query :=
  (get_query_params q0 ⟨2500000000, true, false⟩).2.2.2.1 (by decide)

/-- Claim C7: NewQueue builds a Queue whose queue-resource URL is
"{endpoint}/queues/{name}" (with the other fields stored as given), and no
operation changes any field of its receiver: each operation's post-state
receiver equals the receiver it was called on. -/
theorem queue_url_invariant_and_immutable :
    (∀ endpoint name token,
      (NewQueue endpoint name token).url = endpoint ++ "/queues/" ++ name ∧
      (NewQueue endpoint name token).Endpoint = endpoint ∧
      (NewQueue endpoint name token).Name = name ∧
      (NewQueue endpoint name token).token = token) ∧
    (∀ q t, (Queue.Create q t).2 = q) ∧
    (∀ q t u, (Queue.Statistics q t u).2 = q) ∧
    (∀ q t u, (Queue.Exists q t u).2 = q) ∧
    (∀ q o t u, (Queue.Get q o t u).2 = q) ∧
    (∀ q o t u v, (Queue.GetValue q o t u v).2 = q) ∧
    (∀ q a b t, (Queue.Put q a b t).2 = q) ∧
    (∀ m t, (Message.Delete m t).2 = m) :=
  ⟨fun _ _ _ => ⟨rfl, rfl, rfl, rfl⟩, fun _ _ => rfl, fun _ _ _ => rfl,
   fun _ _ _ => rfl, fun _ _ _ _ => rfl, fun _ _ _ _ _ => rfl,
   fun _ _ _ _ => rfl, fun _ _ => rfl⟩

/-- Claim C8 counterexample: the retrieved Message is lost by GetValue. Two
Get outcomes that differ only in the retrieved message (lease "A" versus
lease "B", same undecodable body) produce identical GetValue results, so no
function of GetValue's result recovers the underlying Message in both
runs. -/
theorem getvalue_loses_message_counterexample :
    ¬ ∃ recover : Option TqsError × Queue → Message,
      recover (Queue.GetValue q0 none tOK oneBatchA umFail)
          = (Queue.Get q0 none tOK oneBatchA).1.1 ∧
      recover (Queue.GetValue q0 none tOK oneBatchB umFail)
          = (Queue.Get q0 none tOK oneBatchB).1.1 := by
  rintro ⟨f, h1, h2⟩
  have heq : Queue.GetValue q0 none tOK oneBatchA umFail
      = Queue.GetValue q0 none tOK oneBatchB umFail := by decide
  rw [heq] at h1
  have : (Queue.Get q0 none tOK oneBatchA).1.1
      = (Queue.Get q0 none tOK oneBatchB).1.1 := h1.symm.trans h2
  exact absurd this (by decide)

/-- Claim C8 amended: when the underlying Get succeeds and the message body
text fails JSON decoding, GetValue surfaces the decode error, which is
distinct from the retrieval errors QueueNotFound and QueueEmpty; the
retrieved Message itself is discarded and is not part of GetValue's
result. -/
theorem getvalue_decode_error_distinct (q : Queue)
    (options : Option GetOptions) (transport : Transport)
    (unmarshalBatch : String → Except Nat (List Message))
    (unmarshalValue : String → Option Nat) (msg : Message) (e : Nat)
    (hget : (q.Get options transport unmarshalBatch).1 = (msg, none))
    (hdec : unmarshalValue msg.BodyText = some e) :
    (q.GetValue options transport unmarshalBatch unmarshalValue).1
        = some (.jsonDecode e) ∧
    (∀ q', TqsError.jsonDecode e ≠ .queueNotFound q') ∧
    (∀ q', TqsError.jsonDecode e ≠ .queueEmpty q') := by
  refine ⟨?_, fun q' => by simp, fun q' => by simp⟩
  simp [Queue.GetValue, hget, hdec]

/-- Instantiation of `getvalue_decode_error_distinct` on a message whose body
"x" fails to decode with error code 7. -/
theorem getvalue_decode_error_distinct_witness :
    (Queue.GetValue q0 none tOK oneBatchA umFail).1
        = some (.jsonDecode 7) :=
  (getvalue_decode_error_distinct q0 none tOK oneBatchA umFail
    { msgA with queue := q0 } 7 rfl rfl).1

/-- Claim C9: the Retry field of GetOptions is never consulted: two options
values differing only in Retry give the same Get request, the same Get
result, and the same GetValue result. -/
theorem retry_option_inert (q : Queue) (o : GetOptions) (b : Bool)
    (transport : Transport)
    (unmarshalBatch : String → Except Nat (List Message))
    (unmarshalValue : String → Option Nat) :
    q.getRequest (some { o with Retry := b }) = q.getRequest (some o) ∧
    Queue.Get q (some { o with Retry := b }) transport unmarshalBatch
        = Queue.Get q (some o) transport unmarshalBatch ∧
    Queue.GetValue q (some { o with Retry := b }) transport unmarshalBatch
        unmarshalValue
        = Queue.GetValue q (some o) transport unmarshalBatch
            unmarshalValue :=
  ⟨rfl, rfl, rfl⟩

/-- Claim C10: in both Statistics and Get, a non-404 response whose body read
fails produces the zero value together with a nil error, because the stale
nil `err` from `client.Do` is returned instead of `readErr`; the outcome is
identical to a genuine zero-valued success. -/
theorem body_read_failure_returns_nil_error (q : Queue)
    (tS tG : Transport)
    (uS : String → Except Nat QueueStatistics)
    (uG : String → Except Nat (List Message))
    (options : Option GetOptions) (resS resG : HttpResponse)
    (hS : tS q.statisticsRequest = .ok resS) (h404S : resS.status ≠ 404)
    (hSb : resS.bodyRead = .failed)
    (hG : tG (q.getRequest options) = .ok resG) (h404G : resG.status ≠ 404)
    (hGb : resG.bodyRead = .failed) :
    (q.Statistics tS uS).1 = (QueueStatistics.zero, none) ∧
    (q.Get options tG uG).1 = (Message.zero, none) ∧
    (q.Statistics (fun _ => .ok ⟨resS.status, .ok ""⟩)
        (fun _ => .ok QueueStatistics.zero)).1
      = (q.Statistics tS uS).1 := by
  have hstats : (q.Statistics tS uS).1 = (QueueStatistics.zero, none) := by
    simp [Queue.Statistics, hS, h404S, hSb]
  refine ⟨hstats, ?_, ?_⟩
  · simp [Queue.Get, hG, h404G, hGb]
  · rw [hstats]
    simp [Queue.Statistics, h404S]

/-- Instantiation of `body_read_failure_returns_nil_error`: a 200 response
whose body read fails yields the zero statistics and the zero message with no
error. -/
theorem body_read_failure_returns_nil_error_witness :
    (Queue.Statistics q0 tReadFail uStatsZero).1
        = (QueueStatistics.zero, none) ∧
    (Queue.Get q0 none tReadFail emptyBatch).1 = (Message.zero, none) :=
  ⟨(body_read_failure_returns_nil_error q0 tReadFail tReadFail uStatsZero
      emptyBatch none ⟨200, .failed⟩ ⟨200, .failed⟩ rfl (by decide) rfl rfl
      (by decide) rfl).1,
   (body_read_failure_returns_nil_error q0 tReadFail tReadFail uStatsZero
      emptyBatch none ⟨200, .failed⟩ ⟨200, .failed⟩ rfl (by decide) rfl rfl
      (by decide) rfl).2.1⟩

end Tqs
